import Mathlib

/-!
Verification of the disaster-response sensor pipeline
(`python_agents/agents/detection_agent.py`, `python_agents/orchestrator.py`).

The Python code is shallowly embedded: JSON values become an inductive
`Json`, Python dictionaries become association lists with first-match
lookup, exceptions become `Except PyErr`, `datetime` instants become
abstract `Int` values supplied through an `Env` record, and the BigQuery
store becomes an oracle listing the error-list response of each
successive `insert_rows_json` call.
-/

namespace ADK

/-- Python exception kinds that the embedded code can raise. -/
inductive PyErr where
  | attributeError
  | typeError
  | valueError
  deriving DecidableEq, Repr

/-- A JSON value as produced by `json.load` (numbers modelled as rationals). -/
inductive Json where
  | null : Json
  | bool : Bool → Json
  | num : Rat → Json
  | str : String → Json
  | arr : List Json → Json
  | obj : List (String × Json) → Json

/-- A Python dictionary with string keys: an association list, first match wins.
`json.load` produces dictionaries with pairwise-distinct keys. -/
abbrev PyDict := List (String × Json)

/-- `d[k]` lookup: first binding of `k`. -/
def dlookup (d : PyDict) (k : String) : Option Json :=
  match d with
  | [] => none
  | (k', v) :: rest => if k' = k then some v else dlookup rest k

/-- `k in d` membership test. -/
def dcontains (d : PyDict) (k : String) : Bool :=
  match d with
  | [] => false
  | (k', _) :: rest => k' = k || dcontains rest k

/-- `d[k] = v` assignment: replace the first binding of `k`, else append. -/
def dset (d : PyDict) (k : String) (v : Json) : PyDict :=
  match d with
  | [] => [(k, v)]
  | (k', v') :: rest => if k' = k then (k', v) :: rest else (k', v') :: dset rest k v

/-- `d1.update(d2)`: assign every binding of `d2` into `d1`, in order. -/
def dupdate (d1 d2 : PyDict) : PyDict :=
  d2.foldl (fun acc kv => dset acc kv.1 kv.2) d1

/-- Python truthiness of a JSON value. -/
def pyTruthy : Json → Bool
  | .null => false
  | .bool b => b
  | .num q => q != 0
  | .str s => s != ""
  | .arr l => !l.isEmpty
  | .obj f => !f.isEmpty

/-- Python `len`: defined for lists, dicts and strings, `TypeError` otherwise. -/
def pyLen : Json → Except PyErr Nat
  | .arr l => .ok l.length
  | .obj f => .ok f.length
  | .str s => .ok s.length
  | _ => .error .typeError

/-- `value.get(key, default)`: dictionary lookup with default; any non-dict
value has no `.get` attribute and raises `AttributeError`. -/
def pyGet (v : Json) (k : String) (default : Json) : Except PyErr Json :=
  match v with
  | .obj fields => .ok ((dlookup fields k).getD default)
  | _ => .error .attributeError

/-- Python `float(x)` restricted to the value shapes the pipeline feeds it:
numbers pass through, booleans coerce to 0/1, anything else raises.
(The builtin also parses numeric strings; no analysed behaviour feeds it one.) -/
def pyFloat : Json → Except PyErr Rat
  | .num q => .ok q
  | .bool b => .ok (if b then 1 else 0)
  | _ => .error .typeError

end ADK

namespace ADK

/-! ### Risk classifier

Modelled from the spec: the orchestrator imports `AnalysisAgent` from
`agents/analysis_agent.py`, a repository file that is not under `src/`;
`classify`/`aggregate` below follow spec §4.2 (threshold policy with the
example values temperature ≥ 60 ∧ smoke ≥ 70 ⇒ High, temperature ≥ 40 ∨
smoke ≥ 40 ⇒ Medium) calibrated against the §8 scenario data. -/

/-- Risk level of a reading or a batch. -/
inductive RiskLevel where
  | low
  | medium
  | high
  deriving DecidableEq, Repr

/-- Numeric severity used to take maxima: High > Medium > Low. -/
def RiskLevel.severity : RiskLevel → Nat
  | .low => 0
  | .medium => 1
  | .high => 2

/-- Maximum of two risk levels by severity. -/
def maxRisk (a b : RiskLevel) : RiskLevel :=
  if a.severity < b.severity then b else a

/-- Modelled from the spec: a sensor reading as consumed by the classifier. -/
structure SpecReading where
  location : String
  temperature : Rat
  smoke_level : Rat
  timestamp : String

/-- Modelled from the spec: a per-location risk verdict. -/
structure RiskVerdict where
  location : String
  risk_level : RiskLevel
  reasons : List String
  deriving DecidableEq, Repr

/-- Named threshold constants (spec §4.2 example values). -/
def TEMPERATURE_HIGH : Rat := 60
/-- Medium-risk temperature threshold. -/
def TEMPERATURE_MEDIUM : Rat := 40
/-- High-risk smoke threshold. -/
def SMOKE_HIGH : Rat := 70
/-- Medium-risk smoke threshold. -/
def SMOKE_MEDIUM : Rat := 40

/-- Modelled from the spec: `classify(reading)` — pure threshold policy, one
reason string per triggered threshold. -/
def classify (r : SpecReading) : RiskVerdict :=
  let tempReasons : List String :=
    if r.temperature ≥ TEMPERATURE_HIGH then ["High temperature detected"]
    else if r.temperature ≥ TEMPERATURE_MEDIUM then ["Elevated temperature detected"]
    else []
  let smokeReasons : List String :=
    if r.smoke_level ≥ SMOKE_HIGH then ["High smoke level detected"]
    else if r.smoke_level ≥ SMOKE_MEDIUM then ["Elevated smoke level detected"]
    else []
  let level : RiskLevel :=
    if r.temperature ≥ TEMPERATURE_HIGH ∧ r.smoke_level ≥ SMOKE_HIGH then .high
    else if r.temperature ≥ TEMPERATURE_MEDIUM ∨ r.smoke_level ≥ SMOKE_MEDIUM then .medium
    else .low
  { location := r.location, risk_level := level, reasons := tempReasons ++ smokeReasons }

/-- Modelled from the spec: `aggregate(verdicts)` — maximum severity, Low for ∅. -/
def aggregate (verdicts : List RiskVerdict) : RiskLevel :=
  verdicts.foldl (fun acc v => maxRisk acc v.risk_level) .low

/-- Modelled from the spec: per-batch analysis result. -/
structure AnalysisResult where
  overall_risk_level : RiskLevel
  total_readings : Nat
  analysis : List RiskVerdict
  deriving DecidableEq, Repr

/-- Modelled from the spec: analyse a batch — classify each reading in order,
aggregate the overall level, count the readings. -/
def analyzeBatch (readings : List SpecReading) : AnalysisResult :=
  let verdicts := readings.map classify
  { overall_risk_level := aggregate verdicts
    total_readings := readings.length
    analysis := verdicts }

end ADK

namespace ADK

/-! ### String helpers (Python semantics, computable on `String.data`) -/

/-- Python string comparison `s <= t`: lexicographic on code points. -/
def lexLe : List Char → List Char → Bool
  | [], _ => true
  | _ :: _, [] => false
  | a :: as, b :: bs =>
    decide (a.toNat < b.toNat) || (decide (a.toNat = b.toNat) && lexLe as bs)

/-- Python `s <= t` on strings. -/
def strLe (s t : String) : Bool :=
  lexLe s.data t.data

/-- Python `s.endswith(t)`. -/
def strEndsWith (s t : String) : Bool :=
  t.data.isSuffixOf s.data

/-- Python `s[:-n]` for `n ≥ 1`: drop the last `n` characters. -/
def strDropRight (s : String) (n : Nat) : String :=
  String.mk (s.data.take (s.data.length - n))

/-- `os.path.basename`: the part after the last slash. -/
def basename (s : String) : String :=
  String.mk ((s.data.reverse.takeWhile (fun c => c ≠ '/')).reverse)

/-- `os.path.isabs`: the path starts with a slash. -/
def isAbsPath (s : String) : Bool :=
  match s.data with
  | [] => false
  | c :: _ => c = '/'

/-- `os.path.join(dir, name)` for a relative `name`. -/
def joinPath (dir name : String) : String :=
  dir ++ "/" ++ name

/-- Glob-style matching with explicit fuel (each step shrinks the combined
length of pattern and name, so the fuel given by `globMatch` never runs out). -/
def globMatchAux : Nat → List Char → List Char → Bool
  | 0, _, _ => false
  | _ + 1, [], [] => true
  | fuel + 1, '*' :: ps, [] => globMatchAux fuel ps []
  | _ + 1, _ :: _, [] => false
  | _ + 1, [], _ :: _ => false
  | fuel + 1, '*' :: ps, c :: cs =>
    globMatchAux fuel ps (c :: cs) || globMatchAux fuel ('*' :: ps) cs
  | fuel + 1, '?' :: ps, _ :: cs => globMatchAux fuel ps cs
  | fuel + 1, p :: ps, c :: cs => decide (p = c) && globMatchAux fuel ps cs

/-- Glob-style matching of a pattern (with `*` and `?` wildcards) against a
name, as `glob.glob` applies to the entries of the searched directory. -/
def globMatch (ps cs : List Char) : Bool :=
  globMatchAux (ps.length + cs.length + 1) ps cs

end ADK

namespace ADK

/-! ### Detection agent embedding (`agents/detection_agent.py`) -/

/-- Values produced by the `datetime` library calls made during one detection
cycle: `fromiso`/`isofmt` model `datetime.fromisoformat`/`.isoformat` with
instants abstracted to `Int`; `detectionTs` is the `datetime.now()` taken at
the top of `_read_json_file`; `nowStr` is the `strftime` rendering of the
`datetime.now()` taken inside `_log_to_bigquery` for the detection id. -/
structure Env where
  fromiso : String → Option Int
  isofmt : Int → String
  detectionTs : Int
  nowStr : String

/-- The agent's process-lifetime state: the enablement flag, whether the
client object is non-`None`, whether the table was created, and the
configured identifiers. Only `__init__`/`_initialize_bigquery` ever write
the first three fields; no other method assigns them. -/
structure AgentState where
  bigqueryEnabled : Bool
  bigqueryClient : Bool
  tableCreated : Bool
  projectId : String
  datasetId : String
  tableId : String

/-- What opening and `json.load`-ing a path yields. -/
inductive FileData where
  | missing
  | invalidJson
  | ioError
  | jsonData (data : Json) (size : Int)

/-- The directory-backed file source: the configured data directory, whether
it exists, its entries (in unspecified order, as `glob` returns them), and
the readable content of each path. -/
structure FileSystem where
  dataDirectory : String
  dirExists : Bool
  entries : List String
  file : String → FileData

/-- The BigQuery store as an oracle: the error list each successive
`insert_rows_json` call reports. -/
abbrev Store := List (List Json)

/-- One `insert_rows_json` call: consume the next oracle response. -/
def insertRows (store : Store) : List Json × Store :=
  (store.headD [], store.tail)

/-- `_find_json_files`: empty if the directory is absent, else the matching
entries joined onto the directory and sorted (`files.sort()`). -/
def findJsonFiles (fs : FileSystem) (pat : String) : List String :=
  if !fs.dirExists then []
  else
    let files := (fs.entries.filter (fun name => globMatch pat.data name.data)).map
      (fun name => joinPath fs.dataDirectory name)
    files.insertionSort (fun a b => strLe a b = true)

/-- The `detection_id` prefix built at line 363: `f"detection_{now_strftime}"`. -/
def detectionIdOf (nowStr : String) : String :=
  "detection_" ++ nowStr

/-- The per-row id at line 379: `f"{detection_id}_{i}"` (`i` printed in decimal). -/
def rowId (detectionId : String) (i : Nat) : String :=
  detectionId ++ "_" ++ Nat.repr i

/-- The inner `try` of the timestamp parse (lines 369–374): strip a trailing
`Z` and parse; a non-string value raises `AttributeError` at `.endswith`;
a failed parse raises `ValueError`. -/
def parseTimestampAttempt (env : Env) (v : Json) : Except PyErr Int :=
  match v with
  | .str s =>
    if strEndsWith s "Z" then
      match env.fromiso (strDropRight s 1) with
      | some t => .ok t
      | none => .error .valueError
    else
      match env.fromiso s with
      | some t => .ok t
      | none => .error .valueError
  | _ => .error .attributeError

/-- Lines 368–376: fetch the `timestamp` field (defaulting to the detection
instant's ISO rendering), attempt the parse, and on any exception fall back
to the detection instant. Total by construction: the bare `except` catches
everything. -/
def sensorTimestampOf (env : Env) (fields : PyDict) : Int :=
  let tsVal := (dlookup fields "timestamp").getD (.str (env.isofmt env.detectionTs))
  match parseTimestampAttempt env tsVal with
  | .ok t => t
  | .error _ => env.detectionTs

/-- One row prepared for insertion (lines 378–389). -/
structure HistoryRow where
  detection_id : String
  file_name : String
  file_path : String
  location : Json
  temperature : Rat
  smoke_level : Rat
  sensor_timestamp : Int
  detection_timestamp : Int
  file_size : Int
  total_readings : Nat

/-- Build the row for reading number `i` (loop body, lines 366–390): a
non-dict reading raises `AttributeError` at `.get`; `float(...)` may raise. -/
def buildRow (env : Env) (detectionId fileName filePath : String) (fileSize : Int)
    (total : Nat) (i : Nat) (reading : Json) : Except PyErr HistoryRow :=
  match reading with
  | .obj fields => do
    let sensorTs := sensorTimestampOf env fields
    let temp ← pyFloat ((dlookup fields "temperature").getD (.num 0))
    let smoke ← pyFloat ((dlookup fields "smoke_level").getD (.num 0))
    .ok { detection_id := rowId detectionId i
          file_name := fileName
          file_path := filePath
          location := (dlookup fields "location").getD (.str "Unknown")
          temperature := temp
          smoke_level := smoke
          sensor_timestamp := sensorTs
          detection_timestamp := env.detectionTs
          file_size := fileSize
          total_readings := total }
  | _ => .error .attributeError

/-- The whole row-building loop over `enumerate(sensor_data)`. -/
def buildRows (env : Env) (detectionId fileName filePath : String) (fileSize : Int)
    (readings : List Json) : Except PyErr (List HistoryRow) :=
  readings.enum.mapM (fun iv =>
    buildRow env detectionId fileName filePath fileSize readings.length iv.1 iv.2)

/-- `enumerate(x)`: list elements for a list, keys for a dict, one-character
strings for a string, `TypeError` otherwise. -/
def pyEnumElems : Json → Except PyErr (List Json)
  | .arr l => .ok l
  | .obj f => .ok (f.map (fun kv => Json.str kv.1))
  | .str s => .ok (s.data.map (fun c => Json.str (String.mk [c])))
  | _ => .error .typeError

/-- The `rows_attempted` computed inside the `except` handler (line 419):
`len(sensor_data) if sensor_data else 0` — itself raising when the value is
truthy but has no `len`. -/
def rowsAttemptedFallback (sensorData : Json) : Except PyErr Nat :=
  if pyTruthy sensorData then pyLen sensorData else .ok 0

/-- `_log_to_bigquery` (lines 339–420), returning the status dictionary and
the store state after the cycle. An uncaught exception inside the `except`
handler propagates as `.error`. -/
def logToBigquery (st : AgentState) (env : Env) (store : Store)
    (sensorData : Json) (filePath : String) (fileSize : Int) :
    Except PyErr (PyDict × Store) :=
  if !st.bigqueryEnabled || !st.bigqueryClient then
    .ok ([("enabled", .bool false), ("status", .str "bigquery_not_enabled")], store)
  else
    let detectionId := detectionIdOf env.nowStr
    let fileName := basename filePath
    match pyEnumElems sensorData with
    | .error _ =>
      -- `enumerate` raised; the handler recomputes the length, which may raise.
      (rowsAttemptedFallback sensorData).map (fun n =>
        ([("enabled", .bool true), ("status", .str "error"),
          ("error", .str "exception"), ("rows_attempted", .num n)], store))
    | .ok elems =>
      match buildRows env detectionId fileName filePath fileSize elems with
      | .error _ =>
        (rowsAttemptedFallback sensorData).map (fun n =>
          ([("enabled", .bool true), ("status", .str "error"),
            ("error", .str "exception"), ("rows_attempted", .num n)], store))
      | .ok rows =>
        let inserted := insertRows store
        if !inserted.1.isEmpty then
          .ok ([("enabled", .bool true), ("status", .str "insert_errors"),
                ("errors", .arr inserted.1),
                ("rows_attempted", .num rows.length)], inserted.2)
        else
          .ok ([("enabled", .bool true), ("status", .str "success"),
                ("rows_inserted", .num rows.length),
                ("table_id", .str (st.projectId ++ "." ++ st.datasetId ++ "." ++ st.tableId)),
                ("detection_id", .str detectionId)], inserted.2)

end ADK

namespace ADK

/-- The `bigquery_logging` sub-dictionary used by the failure outcomes. -/
def noDataToLog (st : AgentState) : Json :=
  .obj [("enabled", .bool st.bigqueryEnabled), ("status", .str "no_data_to_log")]

/-- The outcome dictionary assembled at lines 275–288, before the file's own
top-level keys are copied over it. -/
def initialResult (st : AgentState) (env : Env) (filePath : String) (size : Int)
    (sd : Json) : PyDict :=
  [("status", .str "data_detected"),
   ("sensor_data", sd),
   ("detection_info", .obj
     [("file_path", .str filePath),
      ("file_name", .str (basename filePath)),
      ("file_size", .num size),
      ("read_timestamp", .str (env.isofmt env.detectionTs ++ "Z"))]),
   ("bigquery_logging", .obj
     [("enabled", .bool st.bigqueryEnabled), ("status", .str "not_attempted")])]

/-- `_read_json_file` (lines 259–337): parse the file, assemble the outcome
dictionary, copy the file's top-level keys over it when `sensor_data` is
present, then log to BigQuery when enabled. Every exception of the body is
caught: `FileNotFoundError`, `json.JSONDecodeError` and the catch-all
(which also receives the `AttributeError` of `data.get` on a non-dict and
anything `_log_to_bigquery` lets escape). -/
def readJsonFile (st : AgentState) (env : Env) (fs : FileSystem) (store : Store)
    (filePath : String) : PyDict × Store :=
  let ts := env.isofmt env.detectionTs ++ "Z"
  match fs.file filePath with
  | .missing =>
    ([("status", .str "file_not_found"),
      ("error", .str ("File not found: " ++ filePath)),
      ("timestamp", .str ts), ("bigquery_logging", noDataToLog st)], store)
  | .invalidJson =>
    ([("status", .str "invalid_json"),
      ("error", .str ("Invalid JSON in file " ++ filePath)),
      ("timestamp", .str ts), ("bigquery_logging", noDataToLog st)], store)
  | .ioError =>
    ([("status", .str "read_error"),
      ("error", .str ("Error reading file " ++ filePath)),
      ("timestamp", .str ts), ("bigquery_logging", noDataToLog st)], store)
  | .jsonData data size =>
    match pyGet data "sensor_data" data with
    | .error _ =>
      -- `data.get` on a non-dict raised `AttributeError`, caught by the catch-all.
      ([("status", .str "read_error"),
        ("error", .str ("Error reading file " ++ filePath)),
        ("timestamp", .str ts), ("bigquery_logging", noDataToLog st)], store)
    | .ok sd =>
      let result : PyDict := initialResult st env filePath size sd
      let result :=
        match data with
        | .obj fields =>
          if dcontains fields "sensor_data" then dupdate result fields
          else dset result "sensor_data" data
        | _ => dset result "sensor_data" data
      if st.bigqueryEnabled && st.tableCreated then
        match logToBigquery st env store ((dlookup result "sensor_data").getD .null)
            filePath size with
        | .ok (lo, store') => (dset result "bigquery_logging" (.obj lo), store')
        | .error _ =>
          ([("status", .str "read_error"),
            ("error", .str ("Error reading file " ++ filePath)),
            ("timestamp", .str ts), ("bigquery_logging", noDataToLog st)], store)
      else (result, store)

/-- `_read_specific_file` (lines 243–257). -/
def readSpecificFile (st : AgentState) (env : Env) (fs : FileSystem) (store : Store)
    (filePath : String) : PyDict × Store :=
  let filePath := if isAbsPath filePath then filePath else joinPath fs.dataDirectory filePath
  readJsonFile st env fs store filePath

/-- `detect_and_read` (lines 177–220). A truthy non-string `file_path` makes
`os.path.isabs` raise, and a present non-string `pattern` makes `glob.glob`
raise; both uncaught (`TypeError`). -/
def detectAndRead (st : AgentState) (env : Env) (fs : FileSystem) (store : Store)
    (inputData : Option PyDict) : Except PyErr (PyDict × Store) :=
  let input := inputData.getD []
  let specific := (dlookup input "file_path").getD .null
  if pyTruthy specific then
    match specific with
    | .str p => .ok (readSpecificFile st env fs store p)
    | _ => .error .typeError
  else
    match (dlookup input "pattern").getD (.str "*.json") with
    | .str pat =>
      match findJsonFiles fs pat with
      | [] =>
        .ok ([("status", .str "no_data_found"),
              ("message", .str ("No JSON files found in " ++ fs.dataDirectory)),
              ("timestamp", .str (env.isofmt env.detectionTs ++ "Z")),
              ("detection_info", .obj
                [("directory_checked", .str fs.dataDirectory),
                 ("pattern_searched", .str pat),
                 ("files_found", .num 0)]),
              ("bigquery_logging", noDataToLog st)], store)
      | firstFile :: _ => .ok (readJsonFile st env fs store firstFile)
    | _ => .error .typeError

/-- One `_log_to_bigquery` call as issued over a process lifetime. -/
structure LogCall where
  env : Env
  sensorData : Json
  filePath : String
  fileSize : Int

/-- A process lifetime of `_log_to_bigquery` calls. The agent state is fixed
across them: after `__init__` no method of the class assigns
`bigquery_enabled`, `bigquery_client` or `table_created`. -/
def runLogBatches (st : AgentState) (store : Store) :
    List LogCall → List (Except PyErr PyDict) × Store
  | [] => ([], store)
  | c :: cs =>
    match logToBigquery st c.env store c.sensorData c.filePath c.fileSize with
    | .ok (outcome, store') =>
      let (outs, finalStore) := runLogBatches st store' cs
      (.ok outcome :: outs, finalStore)
    | .error e =>
      -- the exception propagates to the caller; the store was not touched
      let (outs, finalStore) := runLogBatches st store cs
      (.error e :: outs, finalStore)

end ADK

namespace ADK

/-! ### Order lemmas for the lexicographic string order -/

/-- `lexLe` is reflexive. -/
theorem lexLe_refl : ∀ as, lexLe as as = true
  | [] => rfl
  | a :: as => by simp [lexLe, lexLe_refl as]

/-- `lexLe` is total. -/
theorem lexLe_total : ∀ as bs, lexLe as bs = true ∨ lexLe bs as = true
  | [], _ => .inl rfl
  | _ :: _, [] => .inr rfl
  | a :: as, b :: bs => by
    rcases Nat.lt_trichotomy a.toNat b.toNat with h | h | h
    · left; simp [lexLe, h]
    · rcases lexLe_total as bs with ih | ih
      · left; simp [lexLe, h, ih]
      · right; simp [lexLe, h.symm, ih]
    · right; simp [lexLe, h]

/-- `lexLe` is transitive. -/
theorem lexLe_trans : ∀ as bs cs, lexLe as bs = true → lexLe bs cs = true →
    lexLe as cs = true
  | [], _, _ => by intro _ _; rfl
  | _ :: _, [], _ => by simp [lexLe]
  | _ :: _, _ :: _, [] => by intro _ h; simp [lexLe] at h
  | a :: as, b :: bs, c :: cs => by
    simp only [lexLe, Bool.or_eq_true, Bool.and_eq_true, decide_eq_true_eq]
    rintro (h1 | ⟨h1, h1'⟩) (h2 | ⟨h2, h2'⟩)
    · left; omega
    · left; omega
    · left; omega
    · right; exact ⟨by omega, lexLe_trans as bs cs h1' h2'⟩

instance : IsTotal String (fun a b => strLe a b = true) :=
  ⟨fun a b => lexLe_total a.data b.data⟩

instance : IsTrans String (fun a b => strLe a b = true) :=
  ⟨fun a b c => lexLe_trans a.data b.data c.data⟩

end ADK

namespace ADK

/-- C1: the reading (25, 15) classifies Low, (45, 55) Medium, (75, 85) High,
and the batch of exactly these three has overall risk High with 3 readings. -/
theorem C1_scenario_classification :
    (classify ⟨"Building A - Floor 3", 25, 15, "2025-01-11T10:30:00Z"⟩).risk_level
        = .low ∧
    (classify ⟨"Building B - Basement", 45, 55, "2025-01-11T10:31:00Z"⟩).risk_level
        = .medium ∧
    (classify ⟨"Building C - Server Room", 75, 85, "2025-01-11T10:32:00Z"⟩).risk_level
        = .high ∧
    (analyzeBatch
      [⟨"Building A - Floor 3", 25, 15, "2025-01-11T10:30:00Z"⟩,
       ⟨"Building B - Basement", 45, 55, "2025-01-11T10:31:00Z"⟩,
       ⟨"Building C - Server Room", 75, 85, "2025-01-11T10:32:00Z"⟩]).overall_risk_level
        = .high ∧
    (analyzeBatch
      [⟨"Building A - Floor 3", 25, 15, "2025-01-11T10:30:00Z"⟩,
       ⟨"Building B - Basement", 45, 55, "2025-01-11T10:31:00Z"⟩,
       ⟨"Building C - Server Room", 75, 85, "2025-01-11T10:32:00Z"⟩]).total_readings
        = 3 := by
  refine ⟨by decide, by decide, by decide, by decide, rfl⟩

/-- C4: `_find_json_files` on a non-existent data directory returns the empty
list for every pattern (and, being a total function, raises nothing). -/
theorem C4_find_missing_directory (fs : FileSystem) (pat : String)
    (h : fs.dirExists = false) : findJsonFiles fs pat = [] := by
  simp [findJsonFiles, h]

/-- Witness for C4 at a concrete filesystem and pattern. -/
theorem C4_find_missing_directory_witness :
    findJsonFiles ⟨"/data", false, ["a.json", "b.json"], fun _ => .missing⟩ "*.json"
      = [] :=
  C4_find_missing_directory _ _ rfl

end ADK

namespace ADK

/-- C5: for every pattern and existing data directory the found file list is
sorted in ascending lexicographic order, and `detect_and_read` without a
specific `file_path` reads the lexicographically first matching file. -/
theorem C5_sorted_deterministic_first (st : AgentState) (env : Env) (fs : FileSystem)
    (store : Store) (input : PyDict) (pat : String)
    (hdir : fs.dirExists = true)
    (hfp : pyTruthy ((dlookup input "file_path").getD .null) = false)
    (hpat : (dlookup input "pattern").getD (.str "*.json") = .str pat) :
    List.Sorted (fun a b => strLe a b = true) (findJsonFiles fs pat) ∧
    ∀ f rest, findJsonFiles fs pat = f :: rest →
      detectAndRead st env fs store (some input) = .ok (readJsonFile st env fs store f) ∧
      ∀ g ∈ findJsonFiles fs pat, strLe f g = true := by
  have hsorted : List.Sorted (fun a b => strLe a b = true) (findJsonFiles fs pat) := by
    unfold findJsonFiles
    rw [hdir]
    simp only [Bool.not_true, Bool.false_eq_true, if_false]
    exact List.sorted_insertionSort _ _
  refine ⟨hsorted, fun f rest hfind => ⟨?_, ?_⟩⟩
  · unfold detectAndRead
    simp [hfp, hpat, hfind]
  · intro g hg
    rw [hfind] at hsorted hg
    rcases List.mem_cons.mp hg with rfl | hgr
    · exact lexLe_refl _
    · exact (List.sorted_cons.mp hsorted).1 g hgr

/-- Witness for C5: two files, the lexicographically first is read. -/
theorem C5_sorted_deterministic_first_witness :
    detectAndRead ⟨false, false, false, "p", "d", "t"⟩ ⟨fun _ => none, fun _ => "", 0, "X"⟩
        ⟨"/data", true, ["b.json", "a.json"], fun _ => .missing⟩ [] (some [])
      = .ok (readJsonFile ⟨false, false, false, "p", "d", "t"⟩
          ⟨fun _ => none, fun _ => "", 0, "X"⟩
          ⟨"/data", true, ["b.json", "a.json"], fun _ => .missing⟩ [] "/data/a.json") ∧
    List.Sorted (fun a b => strLe a b = true)
      (findJsonFiles ⟨"/data", true, ["b.json", "a.json"], fun _ => .missing⟩ "*.json") :=
  ⟨((C5_sorted_deterministic_first ⟨false, false, false, "p", "d", "t"⟩
      ⟨fun _ => none, fun _ => "", 0, "X"⟩
      ⟨"/data", true, ["b.json", "a.json"], fun _ => .missing⟩ [] [] "*.json"
      rfl rfl rfl).2 "/data/a.json" ["/data/b.json"] (by decide)).1,
   (C5_sorted_deterministic_first ⟨false, false, false, "p", "d", "t"⟩
      ⟨fun _ => none, fun _ => "", 0, "X"⟩
      ⟨"/data", true, ["b.json", "a.json"], fun _ => .missing⟩ [] [] "*.json"
      rfl rfl rfl).1⟩

end ADK

namespace ADK

/-! ### Dictionary lemmas -/

/-- Unfolding `dlookup` on a cons cell. -/
theorem dlookup_cons (k0 : String) (v0 : Json) (rest : PyDict) (k : String) :
    dlookup ((k0, v0) :: rest) k = if k0 = k then some v0 else dlookup rest k := rfl

/-- Setting a key makes it look up to the new value. -/
theorem dlookup_dset_self (d : PyDict) (k : String) (v : Json) :
    dlookup (dset d k v) k = some v := by
  induction d with
  | nil => simp [dset, dlookup]
  | cons kv rest ih =>
    obtain ⟨k', v'⟩ := kv
    by_cases h : k' = k
    · simp [dset, dlookup, h]
    · simp [dset, dlookup_cons, h, ih]

/-- Setting a key leaves other keys unchanged. -/
theorem dlookup_dset_ne (d : PyDict) (k : String) (v : Json) (k' : String)
    (h : k' ≠ k) : dlookup (dset d k v) k' = dlookup d k' := by
  induction d with
  | nil =>
    show dlookup [(k, v)] k' = dlookup [] k'
    rw [dlookup_cons, if_neg (fun hh => h hh.symm)]
  | cons kv rest ih =>
    obtain ⟨k0, v0⟩ := kv
    by_cases h0 : k0 = k
    · have hset : dset ((k0, v0) :: rest) k v = (k0, v) :: rest := by
        show (if k0 = k then (k0, v) :: rest else (k0, v0) :: dset rest k v) = _
        rw [if_pos h0]
      rw [hset, dlookup_cons, dlookup_cons,
        if_neg (fun hh => h (h0.symm.trans hh).symm),
        if_neg (fun hh => h (h0.symm.trans hh).symm)]
    · have hset : dset ((k0, v0) :: rest) k v = (k0, v0) :: dset rest k v := by
        show (if k0 = k then (k0, v) :: rest else (k0, v0) :: dset rest k v) = _
        rw [if_neg h0]
      rw [hset, dlookup_cons, dlookup_cons, ih]

/-- `dcontains` decides membership among the keys. -/
theorem dcontains_iff (d : PyDict) (k : String) :
    dcontains d k = true ↔ k ∈ d.map Prod.fst := by
  induction d with
  | nil => simp [dcontains]
  | cons kv rest ih =>
    obtain ⟨k0, v0⟩ := kv
    show (decide (k0 = k) || dcontains rest k) = true ↔ k ∈ (k0, v0).fst :: rest.map Prod.fst
    rw [Bool.or_eq_true, decide_eq_true_eq, List.mem_cons, ih]
    constructor
    · rintro (h | h)
      · exact .inl h.symm
      · exact .inr h
    · rintro (h | h)
      · exact .inl h.symm
      · exact .inr h

/-- Updating with a dictionary not containing `k` leaves `k` unchanged. -/
theorem dlookup_dupdate_not_contains (d1 d2 : PyDict) (k : String)
    (h : dcontains d2 k = false) : dlookup (dupdate d1 d2) k = dlookup d1 k := by
  induction d2 generalizing d1 with
  | nil => rfl
  | cons kv rest ih =>
    obtain ⟨k0, v0⟩ := kv
    simp only [dcontains, Bool.or_eq_false_iff, decide_eq_false_iff_not] at h
    show dlookup (dupdate (dset d1 k0 v0) rest) k = dlookup d1 k
    rw [ih _ h.2, dlookup_dset_ne _ _ _ _ (fun hh => h.1 hh.symm)]

/-- `d1.update(d2)`: a key bound in `d2` (with `d2`'s keys distinct, as
`json.load` guarantees) looks up in the update to its `d2` value. -/
theorem dlookup_dupdate (d1 d2 : PyDict) (k : String) (v : Json)
    (hnodup : (d2.map Prod.fst).Nodup) (h : dlookup d2 k = some v) :
    dlookup (dupdate d1 d2) k = some v := by
  induction d2 generalizing d1 with
  | nil => simp [dlookup] at h
  | cons kv rest ih =>
    obtain ⟨k0, v0⟩ := kv
    show dlookup (dupdate (dset d1 k0 v0) rest) k = some v
    rw [List.map_cons, List.nodup_cons] at hnodup
    by_cases hk : k0 = k
    · subst hk
      rw [dlookup_cons, if_pos rfl] at h
      have hnc : dcontains rest k0 = false := by
        rcases hb : dcontains rest k0 with _ | _
        · rfl
        · exact absurd ((dcontains_iff rest k0).mp hb) hnodup.1
      rw [dlookup_dupdate_not_contains _ _ _ hnc, dlookup_dset_self]
      exact h
    · rw [dlookup_cons, if_neg hk] at h
      exact ih _ hnodup.2 h

end ADK

namespace ADK

/-- C3: evaluation at the failing input. A file wrapping the readings under
`sensor_data` is read with status `data_detected` and the readings as
payload, but a file whose JSON is the bare list of the same readings makes
`data.get` raise `AttributeError` (lists have no `.get`), which the
catch-all turns into a `read_error` outcome with no `sensor_data` at all —
the two files do not produce equal payloads. -/
theorem C3_bare_list_read_error :
    dlookup (readJsonFile ⟨false, false, false, "p", "d", "t"⟩
        ⟨fun _ => none, fun _ => "", 0, "X"⟩
        ⟨"/data", true, ["wrapped.json", "bare.json"],
          fun p => if p = "/data/wrapped.json" then
            .jsonData (.obj [("sensor_data",
              .arr [.obj [("location", .str "A"), ("temperature", .num 25),
                          ("smoke_level", .num 15)]])]) 10
          else
            .jsonData (.arr [.obj [("location", .str "A"), ("temperature", .num 25),
                                   ("smoke_level", .num 15)]]) 10⟩
        [] "/data/wrapped.json").1 "status" = some (.str "data_detected") ∧
    dlookup (readJsonFile ⟨false, false, false, "p", "d", "t"⟩
        ⟨fun _ => none, fun _ => "", 0, "X"⟩
        ⟨"/data", true, ["wrapped.json", "bare.json"],
          fun p => if p = "/data/wrapped.json" then
            .jsonData (.obj [("sensor_data",
              .arr [.obj [("location", .str "A"), ("temperature", .num 25),
                          ("smoke_level", .num 15)]])]) 10
          else
            .jsonData (.arr [.obj [("location", .str "A"), ("temperature", .num 25),
                                   ("smoke_level", .num 15)]]) 10⟩
        [] "/data/wrapped.json").1 "sensor_data"
      = some (.arr [.obj [("location", .str "A"), ("temperature", .num 25),
                          ("smoke_level", .num 15)]]) ∧
    dlookup (readJsonFile ⟨false, false, false, "p", "d", "t"⟩
        ⟨fun _ => none, fun _ => "", 0, "X"⟩
        ⟨"/data", true, ["wrapped.json", "bare.json"],
          fun p => if p = "/data/wrapped.json" then
            .jsonData (.obj [("sensor_data",
              .arr [.obj [("location", .str "A"), ("temperature", .num 25),
                          ("smoke_level", .num 15)]])]) 10
          else
            .jsonData (.arr [.obj [("location", .str "A"), ("temperature", .num 25),
                                   ("smoke_level", .num 15)]]) 10⟩
        [] "/data/bare.json").1 "status" = some (.str "read_error") ∧
    dlookup (readJsonFile ⟨false, false, false, "p", "d", "t"⟩
        ⟨fun _ => none, fun _ => "", 0, "X"⟩
        ⟨"/data", true, ["wrapped.json", "bare.json"],
          fun p => if p = "/data/wrapped.json" then
            .jsonData (.obj [("sensor_data",
              .arr [.obj [("location", .str "A"), ("temperature", .num 25),
                          ("smoke_level", .num 15)]])]) 10
          else
            .jsonData (.arr [.obj [("location", .str "A"), ("temperature", .num 25),
                                   ("smoke_level", .num 15)]]) 10⟩
        [] "/data/bare.json").1 "sensor_data" = none :=
  ⟨rfl, rfl, rfl, rfl⟩

/-- C9: for every reading that is successfully built into a HistoryRecord,
each missing field independently gets its default: no `location` key gives
the string `'Unknown'`, no `temperature` key gives `0.0`, and no
`smoke_level` key gives `0.0` (the numeric defaults passing through the
`float` coercion of the integer default `0`). -/
theorem C9_missing_field_defaults (env : Env) (did fn fp : String) (fsz : Int)
    (total i : Nat) (fields : PyDict) (row : HistoryRow)
    (h : buildRow env did fn fp fsz total i (.obj fields) = .ok row) :
    (dlookup fields "location" = none → row.location = .str "Unknown") ∧
    (dlookup fields "temperature" = none → row.temperature = 0) ∧
    (dlookup fields "smoke_level" = none → row.smoke_level = 0) := by
  simp only [buildRow] at h
  cases h1 : pyFloat ((dlookup fields "temperature").getD (.num 0)) with
  | error e =>
    rw [h1] at h
    exact absurd h (by simp [Bind.bind, Except.bind])
  | ok t =>
    rw [h1] at h
    cases h2 : pyFloat ((dlookup fields "smoke_level").getD (.num 0)) with
    | error e =>
      rw [h2] at h
      exact absurd h (by simp [Bind.bind, Except.bind])
    | ok q =>
      rw [h2] at h
      simp only [Bind.bind, Except.bind, Except.ok.injEq] at h
      subst h
      refine ⟨fun hloc => ?_, fun htemp => ?_, fun hsmoke => ?_⟩
      · show (dlookup fields "location").getD (.str "Unknown") = .str "Unknown"
        rw [hloc]
        rfl
      · show t = 0
        rw [htemp] at h1
        exact (Except.ok.inj h1).symm
      · show q = 0
        rw [hsmoke] at h2
        exact (Except.ok.inj h2).symm

/-- Witness for C9: a reading carrying only a `location`, so the two numeric
defaults apply while the present field keeps its value. -/
theorem C9_missing_field_defaults_witness :
    (dlookup [("location", Json.str "Roof")] "location" = none →
      ({ detection_id := "detection_X_0", file_name := "a.json",
         file_path := "/data/a.json", location := Json.str "Roof",
         temperature := 0, smoke_level := 0, sensor_timestamp := 0,
         detection_timestamp := 0, file_size := (10:Int),
         total_readings := 1 } : HistoryRow).location = .str "Unknown") ∧
    (dlookup [("location", Json.str "Roof")] "temperature" = none →
      ({ detection_id := "detection_X_0", file_name := "a.json",
         file_path := "/data/a.json", location := Json.str "Roof",
         temperature := 0, smoke_level := 0, sensor_timestamp := 0,
         detection_timestamp := 0, file_size := (10:Int),
         total_readings := 1 } : HistoryRow).temperature = 0) ∧
    (dlookup [("location", Json.str "Roof")] "smoke_level" = none →
      ({ detection_id := "detection_X_0", file_name := "a.json",
         file_path := "/data/a.json", location := Json.str "Roof",
         temperature := 0, smoke_level := 0, sensor_timestamp := 0,
         detection_timestamp := 0, file_size := (10:Int),
         total_readings := 1 } : HistoryRow).smoke_level = 0) :=
  C9_missing_field_defaults ⟨fun _ => none, fun _ => "", 0, "X"⟩ "detection_X"
    "a.json" "/data/a.json" 10 1 0 [("location", Json.str "Roof")]
    { detection_id := "detection_X_0", file_name := "a.json",
      file_path := "/data/a.json", location := Json.str "Roof",
      temperature := 0, smoke_level := 0, sensor_timestamp := 0,
      detection_timestamp := 0, file_size := 10, total_readings := 1 } rfl

end ADK

namespace ADK

/-- C10 counterexample: with BigQuery enabled and the table created, a file
key `bigquery_logging` does NOT survive into the returned outcome — line 304
overwrites it again with the logging status after the `update`. -/
theorem C10_bigquery_logging_overwritten_back :
    dlookup (readJsonFile ⟨true, true, true, "p", "d", "t"⟩
        ⟨fun _ => none, fun _ => "", 0, "X"⟩
        ⟨"/data", true, ["c.json"],
          fun _ => .jsonData (.obj [("sensor_data", .arr []),
                                    ("bigquery_logging", .str "FILE")]) 0⟩
        [[]] "/data/c.json").1 "bigquery_logging"
      = some (.obj [("enabled", .bool true), ("status", .str "success"),
                    ("rows_inserted", .num 0), ("table_id", .str "p.d.t"),
                    ("detection_id", .str "detection_X")]) ∧
    dlookup (readJsonFile ⟨true, true, true, "p", "d", "t"⟩
        ⟨fun _ => none, fun _ => "", 0, "X"⟩
        ⟨"/data", true, ["c.json"],
          fun _ => .jsonData (.obj [("sensor_data", .arr []),
                                    ("bigquery_logging", .str "FILE")]) 0⟩
        [[]] "/data/c.json").1 "bigquery_logging"
      ≠ some (.str "FILE") :=
  ⟨rfl, fun h => Json.noConfusion (Option.some.inj h)⟩

/-- C10 amended: the file's top-level keys are copied over the outcome after
the standard fields are set; every copied key (in particular `status` and
`detection_info`) persists into the returned outcome when no logging is
performed, and when logging is performed every copied key other than
`bigquery_logging` persists while `bigquery_logging` is overwritten again
with the logging status. -/
theorem C10_file_keys_overwrite (st : AgentState) (env : Env) (fs : FileSystem)
    (store : Store) (fp : String) (fields : PyDict) (size : Int) (k : String) (v : Json)
    (hfile : fs.file fp = .jsonData (.obj fields) size)
    (hsd : dcontains fields "sensor_data" = true)
    (hnodup : (fields.map Prod.fst).Nodup)
    (hk : dlookup fields k = some v) :
    ((st.bigqueryEnabled && st.tableCreated) = false →
      dlookup (readJsonFile st env fs store fp).1 k = some v) ∧
    ((st.bigqueryEnabled && st.tableCreated) = true →
      ∀ lo store', logToBigquery st env store
          ((dlookup (dupdate (initialResult st env fp size
              ((dlookup fields "sensor_data").getD (.obj fields))) fields)
            "sensor_data").getD .null) fp size = .ok (lo, store') →
        k ≠ "bigquery_logging" →
        dlookup (readJsonFile st env fs store fp).1 k = some v) := by
  constructor
  · intro hflag
    simp only [readJsonFile, hfile, pyGet, hsd, if_true, hflag, Bool.false_eq_true,
      if_false]
    exact dlookup_dupdate _ _ _ _ hnodup hk
  · intro hflag lo store' hlog hne
    simp only [readJsonFile, hfile, pyGet, hsd, if_true, hflag, if_true, hlog]
    rw [dlookup_dset_ne _ _ _ _ hne]
    exact dlookup_dupdate _ _ _ _ hnodup hk

/-- Witness for C10 amended, covering both conjuncts at concrete inputs
(logging disabled for the first, enabled with an error-free insert response
for the second). -/
theorem C10_file_keys_overwrite_witness :
    dlookup (readJsonFile ⟨false, false, false, "p", "d", "t"⟩
        ⟨fun _ => none, fun _ => "", 0, "X"⟩
        ⟨"/data", true, ["c.json"],
          fun _ => .jsonData (.obj [("sensor_data", .arr []),
                                    ("status", .str "FILE")]) 0⟩
        [] "/data/c.json").1 "status" = some (.str "FILE") ∧
    dlookup (readJsonFile ⟨true, true, true, "p", "d", "t"⟩
        ⟨fun _ => none, fun _ => "", 0, "X"⟩
        ⟨"/data", true, ["c.json"],
          fun _ => .jsonData (.obj [("sensor_data", .arr []),
                                    ("status", .str "FILE")]) 0⟩
        [[]] "/data/c.json").1 "status" = some (.str "FILE") :=
  ⟨(C10_file_keys_overwrite ⟨false, false, false, "p", "d", "t"⟩
      ⟨fun _ => none, fun _ => "", 0, "X"⟩
      ⟨"/data", true, ["c.json"],
        fun _ => .jsonData (.obj [("sensor_data", .arr []),
                                  ("status", .str "FILE")]) 0⟩
      [] "/data/c.json" [("sensor_data", .arr []), ("status", .str "FILE")] 0
      "status" (.str "FILE") rfl rfl (by decide) rfl).1 rfl,
   (C10_file_keys_overwrite ⟨true, true, true, "p", "d", "t"⟩
      ⟨fun _ => none, fun _ => "", 0, "X"⟩
      ⟨"/data", true, ["c.json"],
        fun _ => .jsonData (.obj [("sensor_data", .arr []),
                                  ("status", .str "FILE")]) 0⟩
      [[]] "/data/c.json" [("sensor_data", .arr []), ("status", .str "FILE")] 0
      "status" (.str "FILE") rfl rfl (by decide) rfl).2 rfl _ _ rfl (by decide)⟩

end ADK

namespace ADK

/-- A successful `mapM` in `Except` preserves the length. -/
theorem mapM_ok_length {α β : Type} (f : α → Except PyErr β) :
    ∀ (l : List α) (bs : List β), l.mapM f = .ok bs → bs.length = l.length := by
  intro l
  induction l with
  | nil =>
    intro bs h
    rw [List.mapM_nil] at h
    cases h
    rfl
  | cons a l ih =>
    intro bs h
    rw [List.mapM_cons] at h
    cases hfa : f a with
    | error e =>
      rw [hfa] at h
      exact absurd h (by simp [Bind.bind, Except.bind])
    | ok b =>
      rw [hfa] at h
      cases hl : l.mapM f with
      | error e =>
        rw [hl] at h
        exact absurd h (by simp [Bind.bind, Except.bind])
      | ok xs =>
        rw [hl] at h
        simp only [Bind.bind, Except.bind, pure, Except.pure] at h
        cases h
        simp [ih xs hl]

/-- A successful `buildRows` yields one row per reading. -/
theorem buildRows_length (env : Env) (did fn fp : String) (fsz : Int)
    (readings : List Json) (rows : List HistoryRow)
    (h : buildRows env did fn fp fsz readings = .ok rows) :
    rows.length = readings.length := by
  have := mapM_ok_length _ _ _ h
  simpa using this

end ADK

namespace ADK

/-- C6: timestamp handling in `_log_to_bigquery`. (1) A string `timestamp`
ending in `Z` has the suffix stripped and the remainder parsed, the
detection instant standing in when the parse fails; (2) whenever the parse
attempt raises, the fallback yields the detection instant (and the total
function raises nothing); (3) the row build succeeds whatever the
`timestamp` field holds, provided only the numeric coercions succeed;
(4) the whole batch logs with status `success` when the store reports no
errors. -/
theorem C6_timestamp_fallback :
    (∀ (env : Env) (fields : PyDict) (s : String),
      dlookup fields "timestamp" = some (.str s) →
      strEndsWith s "Z" = true →
      sensorTimestampOf env fields
        = (env.fromiso (strDropRight s 1)).getD env.detectionTs) ∧
    (∀ (env : Env) (fields : PyDict) (e : PyErr),
      parseTimestampAttempt env ((dlookup fields "timestamp").getD
        (.str (env.isofmt env.detectionTs))) = .error e →
      sensorTimestampOf env fields = env.detectionTs) ∧
    (∀ (env : Env) (did fn fp : String) (fsz : Int) (total i : Nat)
        (fields : PyDict) (temp smoke : Rat),
      pyFloat ((dlookup fields "temperature").getD (.num 0)) = .ok temp →
      pyFloat ((dlookup fields "smoke_level").getD (.num 0)) = .ok smoke →
      ∃ row, buildRow env did fn fp fsz total i (.obj fields) = .ok row ∧
        row.sensor_timestamp = sensorTimestampOf env fields) ∧
    (∀ (st : AgentState) (env : Env) (rest : Store) (readings : List Json)
        (rows : List HistoryRow) (fp : String) (fsz : Int),
      st.bigqueryEnabled = true → st.bigqueryClient = true →
      buildRows env (detectionIdOf env.nowStr) (basename fp) fp fsz readings
        = .ok rows →
      logToBigquery st env ([] :: rest) (.arr readings) fp fsz =
        .ok ([("enabled", .bool true), ("status", .str "success"),
              ("rows_inserted", .num rows.length),
              ("table_id", .str (st.projectId ++ "." ++ st.datasetId ++ "."
                ++ st.tableId)),
              ("detection_id", .str (detectionIdOf env.nowStr))], rest)) := by
  refine ⟨?_, ?_, ?_, ?_⟩
  · intro env fields s hts hZ
    unfold sensorTimestampOf
    rw [hts]
    simp only [Option.getD_some, parseTimestampAttempt, hZ, if_true]
    cases env.fromiso (strDropRight s 1) <;> rfl
  · intro env fields e h
    simp only [sensorTimestampOf, h]
  · intro env did fn fp fsz total i fields temp smoke htemp hsmoke
    refine ⟨{ detection_id := rowId did i, file_name := fn, file_path := fp,
              location := (dlookup fields "location").getD (.str "Unknown"),
              temperature := temp, smoke_level := smoke,
              sensor_timestamp := sensorTimestampOf env fields,
              detection_timestamp := env.detectionTs, file_size := fsz,
              total_readings := total }, ?_, rfl⟩
    simp only [buildRow]
    rw [htemp, hsmoke]
    rfl
  · intro st env rest readings rows fp fsz hEn hCl hrows
    unfold logToBigquery
    rw [hEn, hCl]
    simp only [Bool.not_true, Bool.or_self, Bool.false_eq_true, if_false, pyEnumElems,
      hrows, insertRows, List.headD_cons, List.tail_cons, List.isEmpty_nil,
      Bool.not_true, Bool.false_eq_true, if_false]

end ADK

namespace ADK

/-- Witness for C6 at concrete inputs: a `Z`-suffixed parseable timestamp, a
non-string timestamp (parse raises, fallback applies), a row build with an
arbitrary timestamp field, and a full successful batch log. -/
theorem C6_timestamp_fallback_witness :
    sensorTimestampOf ⟨fun s => if s = "2025" then some 5 else none, fun _ => "", 0, "X"⟩
        [("timestamp", .str "2025Z")]
      = ((fun s => if s = "2025" then some (5:Int) else none)
          (strDropRight "2025Z" 1)).getD 0 ∧
    sensorTimestampOf ⟨fun _ => none, fun _ => "", 0, "X"⟩ [("timestamp", .num 3)] = 0 ∧
    (∃ row, buildRow ⟨fun _ => none, fun _ => "", 0, "X"⟩ "detection_X" "a.json"
        "/data/a.json" 10 1 0 (.obj [("timestamp", .bool true)]) = .ok row ∧
      row.sensor_timestamp = sensorTimestampOf ⟨fun _ => none, fun _ => "", 0, "X"⟩
        [("timestamp", .bool true)]) ∧
    logToBigquery ⟨true, true, true, "p", "d", "t"⟩ ⟨fun _ => none, fun _ => "", 0, "X"⟩
        [[]] (.arr [.obj []]) "/data/a.json" 10 =
      .ok ([("enabled", .bool true), ("status", .str "success"),
            ("rows_inserted", .num (1:Nat)),
            ("table_id", .str "p.d.t"), ("detection_id", .str "detection_X")], []) :=
  ⟨C6_timestamp_fallback.1 _ _ "2025Z" rfl (by decide),
   C6_timestamp_fallback.2.1 _ _ .attributeError rfl,
   C6_timestamp_fallback.2.2.1 _ "detection_X" "a.json" "/data/a.json" 10 1 0
     [("timestamp", .bool true)] 0 0 rfl rfl,
   C6_timestamp_fallback.2.2.2 ⟨true, true, true, "p", "d", "t"⟩
     ⟨fun _ => none, fun _ => "", 0, "X"⟩ [] [.obj []]
     [{ detection_id := "detection_X_0", file_name := "a.json",
        file_path := "/data/a.json", location := .str "Unknown",
        temperature := 0, smoke_level := 0, sensor_timestamp := 0,
        detection_timestamp := 0, file_size := 10, total_readings := 1 }]
     "/data/a.json" 10 rfl rfl rfl⟩

/-- C7: when the store reports a non-empty list of row-level errors, the
outcome has status `insert_errors`, `rows_attempted` equal to the batch
size, the error list passed through verbatim — and exactly one insertion
was issued (the store oracle advanced by exactly one response). -/
theorem C7_insert_errors_no_retry (st : AgentState) (env : Env)
    (errs : List Json) (rest : Store) (readings : List Json)
    (rows : List HistoryRow) (fp : String) (fsz : Int)
    (hEn : st.bigqueryEnabled = true) (hCl : st.bigqueryClient = true)
    (hrows : buildRows env (detectionIdOf env.nowStr) (basename fp) fp fsz readings
      = .ok rows)
    (hne : errs ≠ []) :
    logToBigquery st env (errs :: rest) (.arr readings) fp fsz =
      .ok ([("enabled", .bool true), ("status", .str "insert_errors"),
            ("errors", .arr errs), ("rows_attempted", .num readings.length)], rest) := by
  obtain ⟨e, es, rfl⟩ := List.exists_cons_of_ne_nil hne
  unfold logToBigquery
  rw [hEn, hCl]
  simp only [Bool.not_true, Bool.or_self, Bool.false_eq_true, if_false, pyEnumElems,
    hrows, insertRows, List.headD_cons, List.tail_cons, List.isEmpty_cons,
    Bool.not_false, if_true]
  rw [buildRows_length env (detectionIdOf env.nowStr) (basename fp) fp fsz
    readings rows hrows]

/-- Witness for C7: one reading, one store error, reported verbatim. -/
theorem C7_insert_errors_no_retry_witness :
    logToBigquery ⟨true, true, true, "p", "d", "t"⟩ ⟨fun _ => none, fun _ => "", 0, "X"⟩
        [[.str "row failed"]] (.arr [.obj []]) "/data/a.json" 10 =
      .ok ([("enabled", .bool true), ("status", .str "insert_errors"),
            ("errors", .arr [.str "row failed"]),
            ("rows_attempted", .num (1:Nat))], []) :=
  C7_insert_errors_no_retry ⟨true, true, true, "p", "d", "t"⟩
    ⟨fun _ => none, fun _ => "", 0, "X"⟩ [.str "row failed"] [] [.obj []]
    [{ detection_id := "detection_X_0", file_name := "a.json",
       file_path := "/data/a.json", location := .str "Unknown",
       temperature := 0, smoke_level := 0, sensor_timestamp := 0,
       detection_timestamp := 0, file_size := 10, total_readings := 1 }]
    "/data/a.json" 10 rfl rfl rfl (List.cons_ne_nil _ _)

/-- C8: once disabled, the logger is inert for the whole process lifetime —
every `_log_to_bigquery` call of the lifetime returns the
`bigquery_not_enabled` status and the store oracle is never consumed. -/
theorem C8_disabled_logger_inert (st : AgentState) (store : Store)
    (calls : List LogCall) (h : st.bigqueryEnabled = false) :
    runLogBatches st store calls =
      (calls.map (fun _ => .ok [("enabled", .bool false),
        ("status", .str "bigquery_not_enabled")]), store) := by
  induction calls with
  | nil => rfl
  | cons c cs ih =>
    have hlog : logToBigquery st c.env store c.sensorData c.filePath c.fileSize =
        .ok ([("enabled", .bool false), ("status", .str "bigquery_not_enabled")],
          store) := by
      unfold logToBigquery
      rw [h]
      rfl
    unfold runLogBatches
    simp only [hlog, ih, List.map_cons]

/-- Witness for C8: two calls against a disabled logger; both return
`bigquery_not_enabled` and the store response is still unconsumed. -/
theorem C8_disabled_logger_inert_witness :
    runLogBatches ⟨false, true, true, "p", "d", "t"⟩ [[.str "resp"]]
        [⟨⟨fun _ => none, fun _ => "", 0, "X"⟩, .arr [.obj []], "/data/a.json", 10⟩,
         ⟨⟨fun _ => none, fun _ => "", 0, "Y"⟩, .arr [.obj []], "/data/b.json", 10⟩] =
      ([.ok [("enabled", .bool false), ("status", .str "bigquery_not_enabled")],
        .ok [("enabled", .bool false), ("status", .str "bigquery_not_enabled")]],
       [[.str "resp"]]) :=
  C8_disabled_logger_inert ⟨false, true, true, "p", "d", "t"⟩ [[.str "resp"]]
    [⟨⟨fun _ => none, fun _ => "", 0, "X"⟩, .arr [.obj []], "/data/a.json", 10⟩,
     ⟨⟨fun _ => none, fun _ => "", 0, "Y"⟩, .arr [.obj []], "/data/b.json", 10⟩] rfl

end ADK

namespace ADK

/-! ### Injectivity of decimal rendering, for detection-id uniqueness -/

/-- `Nat.toDigitsCore` against `Nat.digits`, given sufficient fuel. -/
theorem toDigitsCore_eq_digits :
    ∀ (fuel n : Nat) (acc : List Char), n < fuel →
    Nat.toDigitsCore 10 fuel n acc =
      (if n = 0 then ['0'] else ((Nat.digits 10 n).map Nat.digitChar).reverse) ++ acc := by
  intro fuel
  induction fuel with
  | zero => intro n acc h; omega
  | succ fuel ih =>
    intro n acc h
    by_cases h0 : n = 0
    · subst h0
      rw [if_pos rfl]
      rfl
    · have hpos : 0 < n := Nat.pos_of_ne_zero h0
      rw [if_neg h0]
      by_cases hdiv : n / 10 = 0
      · show (if n / 10 = 0 then Nat.digitChar (n % 10) :: acc
             else Nat.toDigitsCore 10 fuel (n / 10) (Nat.digitChar (n % 10) :: acc))
            = ((Nat.digits 10 n).map Nat.digitChar).reverse ++ acc
        rw [if_pos hdiv, Nat.digits_def' (by norm_num : (1:Nat) < 10) hpos, hdiv]
        simp
      · show (if n / 10 = 0 then Nat.digitChar (n % 10) :: acc
             else Nat.toDigitsCore 10 fuel (n / 10) (Nat.digitChar (n % 10) :: acc))
            = ((Nat.digits 10 n).map Nat.digitChar).reverse ++ acc
        rw [if_neg hdiv]
        have hlt : n / 10 < fuel := by
          have : n / 10 < n := Nat.div_lt_self hpos (by norm_num)
          omega
        rw [ih (n / 10) _ hlt, if_neg hdiv,
          Nat.digits_def' (by norm_num : (1:Nat) < 10) hpos]
        simp [List.reverse_cons, List.append_assoc]

/-- `Nat.toDigits` in terms of `Nat.digits`. -/
theorem toDigits_eq_digits (n : Nat) :
    Nat.toDigits 10 n =
      (if n = 0 then ['0'] else ((Nat.digits 10 n).map Nat.digitChar).reverse) := by
  have := toDigitsCore_eq_digits (n + 1) n [] (by omega)
  simpa [Nat.toDigits] using this

/-- `Nat.digitChar` is injective below 10. -/
theorem digitChar_injOn : ∀ a, a < 10 → ∀ b, b < 10 →
    Nat.digitChar a = Nat.digitChar b → a = b := by decide

/-- Mapping `Nat.digitChar` over digit lists is injective. -/
theorem map_digitChar_inj : ∀ (xs ys : List Nat), (∀ x ∈ xs, x < 10) →
    (∀ y ∈ ys, y < 10) → xs.map Nat.digitChar = ys.map Nat.digitChar → xs = ys
  | [], [], _, _, _ => rfl
  | [], _ :: _, _, _, h => by simp at h
  | _ :: _, [], _, _, h => by simp at h
  | x :: xs, y :: ys, hx, hy, h => by
    simp only [List.map_cons, List.cons.injEq] at h
    have hxy := digitChar_injOn x (hx x (.head _)) y (hy y (.head _)) h.1
    have htail := map_digitChar_inj xs ys (fun a ha => hx a (.tail _ ha))
      (fun a ha => hy a (.tail _ ha)) h.2
    rw [hxy, htail]

/-- `Nat.repr` (the decimal rendering used by Python's string formatting of
the row index) is injective. -/
theorem natRepr_injective {m n : Nat} (h : Nat.repr m = Nat.repr n) : m = n := by
  have hd : Nat.toDigits 10 m = Nat.toDigits 10 n := by
    have := congrArg String.data h
    simpa [Nat.repr, List.asString] using this
  rw [toDigits_eq_digits, toDigits_eq_digits] at hd
  have digitsBound : ∀ (k : Nat), ∀ x ∈ Nat.digits 10 k, x < 10 :=
    fun k x hx => Nat.digits_lt_base (by norm_num) hx
  by_cases hm : m = 0 <;> by_cases hn : n = 0
  · rw [hm, hn]
  · rw [if_pos hm, if_neg hn] at hd
    have hmap : (Nat.digits 10 n).map Nat.digitChar = ['0'] := by
      have := congrArg List.reverse hd
      simpa using this.symm
    have hdig : Nat.digits 10 n = [0] :=
      map_digitChar_inj _ [0] (digitsBound n) (by intro y hy; simp at hy; omega)
        (by rw [hmap]; rfl)
    have : n = 0 := by
      have hof := Nat.ofDigits_digits 10 n
      rw [hdig] at hof
      simpa [Nat.ofDigits] using hof.symm
    exact absurd this hn
  · rw [if_neg hm, if_pos hn] at hd
    have hmap : (Nat.digits 10 m).map Nat.digitChar = ['0'] := by
      have := congrArg List.reverse hd
      simpa using this
    have hdig : Nat.digits 10 m = [0] :=
      map_digitChar_inj _ [0] (digitsBound m) (by intro y hy; simp at hy; omega)
        (by rw [hmap]; rfl)
    have : m = 0 := by
      have hof := Nat.ofDigits_digits 10 m
      rw [hdig] at hof
      simpa [Nat.ofDigits] using hof.symm
    exact absurd this hm
  · rw [if_neg hm, if_neg hn] at hd
    have hmap : (Nat.digits 10 m).map Nat.digitChar
        = (Nat.digits 10 n).map Nat.digitChar := by
      have := congrArg List.reverse hd
      simpa using this
    have hdig := map_digitChar_inj _ _ (digitsBound m) (digitsBound n) hmap
    have h1 := Nat.ofDigits_digits 10 m
    have h2 := Nat.ofDigits_digits 10 n
    rw [hdig] at h1
    exact h1.symm.trans h2

end ADK

namespace ADK

/-- Row-id injectivity: with equal-length detection-id prefixes (the
`strftime('%Y%m%d_%H%M%S_%f')` format is fixed-width), equal row ids force
equal prefixes and equal indices. -/
theorem rowId_inj (d1 d2 : String) (i1 i2 : Nat) (hlen : d1.length = d2.length)
    (h : rowId d1 i1 = rowId d2 i2) : d1 = d2 ∧ i1 = i2 := by
  unfold rowId at h
  have hdata := congrArg String.data h
  simp only [String.data_append] at hdata
  rw [List.append_assoc, List.append_assoc] at hdata
  have hl : d1.data.length = d2.data.length := hlen
  obtain ⟨h1, h2⟩ := List.append_inj hdata hl
  refine ⟨String.ext h1, ?_⟩
  have h3 : (Nat.repr i1).data = (Nat.repr i2).data := List.append_cancel_left h2
  exact natRepr_injective (String.ext h3)

/-- The detection id recorded in a successfully built row is
`f"{detection_id}_{i}"` for its index `i`. -/
theorem buildRow_detection_id (env : Env) (did fn fp : String) (fsz : Int)
    (total i : Nat) (reading : Json) (row : HistoryRow)
    (h : buildRow env did fn fp fsz total i reading = .ok row) :
    row.detection_id = rowId did i := by
  cases reading with
  | obj fields =>
    simp only [buildRow] at h
    cases h1 : pyFloat ((dlookup fields "temperature").getD (.num 0)) with
    | error e =>
      rw [h1] at h
      exact absurd h (by simp [Bind.bind, Except.bind])
    | ok t =>
      rw [h1] at h
      cases h2 : pyFloat ((dlookup fields "smoke_level").getD (.num 0)) with
      | error e =>
        rw [h2] at h
        exact absurd h (by simp [Bind.bind, Except.bind])
      | ok q =>
        rw [h2] at h
        simp only [Bind.bind, Except.bind, Except.ok.injEq] at h
        rw [← h]
  | null => exact absurd h (by simp [buildRow])
  | bool b => exact absurd h (by simp [buildRow])
  | num q => exact absurd h (by simp [buildRow])
  | str s => exact absurd h (by simp [buildRow])
  | arr l => exact absurd h (by simp [buildRow])

/-- The detection ids of a successfully built row list are exactly
`rowId did start, rowId did (start+1), …` in order. -/
theorem mapM_buildRow_ids (env : Env) (did fn fp : String) (fsz : Int) (total : Nat) :
    ∀ (l : List Json) (start : Nat) (rows : List HistoryRow),
      (l.enumFrom start).mapM
        (fun iv => buildRow env did fn fp fsz total iv.1 iv.2) = .ok rows →
      rows.map (fun r => r.detection_id) = (List.range' start l.length).map (rowId did)
  | [], start, rows => by
    intro h
    rw [List.enumFrom, List.mapM_nil] at h
    cases h
    rfl
  | x :: xs, start, rows => by
    intro h
    rw [List.enumFrom, List.mapM_cons] at h
    cases h1 : buildRow env did fn fp fsz total start x with
    | error e =>
      rw [h1] at h
      exact absurd h (by simp [Bind.bind, Except.bind])
    | ok row =>
      rw [h1] at h
      cases h2 : (xs.enumFrom (start + 1)).mapM
          (fun iv => buildRow env did fn fp fsz total iv.1 iv.2) with
      | error e =>
        rw [h2] at h
        exact absurd h (by simp [Bind.bind, Except.bind])
      | ok rest =>
        rw [h2] at h
        simp only [Bind.bind, Except.bind, pure, Except.pure, Except.ok.injEq] at h
        subst h
        rw [List.length_cons, List.range'_succ, List.map_cons, List.map_cons,
          buildRow_detection_id env did fn fp fsz total start x row h1,
          mapM_buildRow_ids env did fn fp fsz total xs (start + 1) rest h2]

/-- The detection ids of a successful `buildRows` are
`rowId did 0, …, rowId did (n-1)`. -/
theorem buildRows_ids (env : Env) (did fn fp : String) (fsz : Int)
    (readings : List Json) (rows : List HistoryRow)
    (h : buildRows env did fn fp fsz readings = .ok rows) :
    rows.map (fun r => r.detection_id)
      = (List.range' 0 readings.length).map (rowId did) :=
  mapM_buildRow_ids env did fn fp fsz readings.length readings 0 rows h

end ADK

namespace ADK

/-- C2 counterexample: two distinct `_log_to_bigquery` calls (different source
files) whose `datetime.now().strftime('%Y%m%d_%H%M%S_%f')` values coincide —
two calls within the same microsecond — build HistoryRecords with the SAME
`detection_id`, refuting process-lifetime uniqueness. -/
theorem C2_same_microsecond_collision :
    buildRows ⟨fun _ => none, fun _ => "", 0, "20250111_103000_000000"⟩
        (detectionIdOf "20250111_103000_000000") "a.json" "/data/a.json" 10 [.obj []]
      = .ok [{ detection_id := "detection_20250111_103000_000000_0",
               file_name := "a.json", file_path := "/data/a.json",
               location := .str "Unknown", temperature := 0, smoke_level := 0,
               sensor_timestamp := 0, detection_timestamp := 0,
               file_size := 10, total_readings := 1 }] ∧
    buildRows ⟨fun _ => none, fun _ => "", 0, "20250111_103000_000000"⟩
        (detectionIdOf "20250111_103000_000000") "b.json" "/data/b.json" 10 [.obj []]
      = .ok [{ detection_id := "detection_20250111_103000_000000_0",
               file_name := "b.json", file_path := "/data/b.json",
               location := .str "Unknown", temperature := 0, smoke_level := 0,
               sensor_timestamp := 0, detection_timestamp := 0,
               file_size := 10, total_readings := 1 }] ∧
    ("a.json" : String) ≠ "b.json" :=
  ⟨rfl, rfl, by decide⟩

/-- C2 amended: detection ids are pairwise distinct within one
`_log_to_bigquery` call, and distinct across two calls whenever the calls'
microsecond timestamp strings differ (they share the fixed-width `strftime`
format, so equal lengths). -/
theorem C2_detection_ids_unique (env1 env2 : Env) (fn1 fp1 fn2 fp2 : String)
    (fsz1 fsz2 : Int) (readings1 readings2 : List Json)
    (rows1 rows2 : List HistoryRow)
    (h1 : buildRows env1 (detectionIdOf env1.nowStr) fn1 fp1 fsz1 readings1
      = .ok rows1)
    (h2 : buildRows env2 (detectionIdOf env2.nowStr) fn2 fp2 fsz2 readings2
      = .ok rows2)
    (hlen : env1.nowStr.length = env2.nowStr.length) :
    (rows1.map (fun r => r.detection_id)).Nodup ∧
    (env1.nowStr ≠ env2.nowStr →
      ∀ r1 ∈ rows1, ∀ r2 ∈ rows2, r1.detection_id ≠ r2.detection_id) := by
  have hids1 := buildRows_ids _ _ _ _ _ _ _ h1
  have hids2 := buildRows_ids _ _ _ _ _ _ _ h2
  have hdidlen : (detectionIdOf env1.nowStr).length
      = (detectionIdOf env2.nowStr).length := by
    simp [detectionIdOf, String.length_append, hlen]
  constructor
  · rw [hids1]
    refine List.Nodup.map ?_ (List.nodup_range' _ _)
    intro a b hab
    exact (rowId_inj _ _ a b rfl hab).2
  · intro hne r1 hr1 r2 hr2 heq
    have hm1 : r1.detection_id ∈ rows1.map (fun r => r.detection_id) :=
      List.mem_map.mpr ⟨r1, hr1, rfl⟩
    have hm2 : r2.detection_id ∈ rows2.map (fun r => r.detection_id) :=
      List.mem_map.mpr ⟨r2, hr2, rfl⟩
    rw [hids1] at hm1
    rw [hids2] at hm2
    obtain ⟨i, _, hieq⟩ := List.mem_map.mp hm1
    obtain ⟨j, _, hjeq⟩ := List.mem_map.mp hm2
    have hrow : rowId (detectionIdOf env1.nowStr) i
        = rowId (detectionIdOf env2.nowStr) j := by
      rw [hieq, hjeq, heq]
    have hdid := (rowId_inj _ _ i j hdidlen hrow).1
    apply hne
    have hdata := congrArg String.data hdid
    simp only [detectionIdOf, String.data_append] at hdata
    exact String.ext (List.append_cancel_left hdata)

/-- Witness for C2 amended: two one-reading calls in distinct microseconds
("…_000000" and "…_000001"). -/
theorem C2_detection_ids_unique_witness :
    (([{ detection_id := "detection_20250111_103000_000000_0",
         file_name := "a.json", file_path := "/data/a.json",
         location := Json.str "Unknown", temperature := 0, smoke_level := 0,
         sensor_timestamp := 0, detection_timestamp := 0,
         file_size := (10:Int), total_readings := 1 }] :
        List HistoryRow).map (fun r => r.detection_id)).Nodup ∧
    ("20250111_103000_000000" ≠ "20250111_103000_000001" →
      ∀ r1 ∈ ([{ detection_id := "detection_20250111_103000_000000_0",
                 file_name := "a.json", file_path := "/data/a.json",
                 location := Json.str "Unknown", temperature := 0, smoke_level := 0,
                 sensor_timestamp := 0, detection_timestamp := 0,
                 file_size := (10:Int), total_readings := 1 }] : List HistoryRow),
      ∀ r2 ∈ ([{ detection_id := "detection_20250111_103000_000001_0",
                 file_name := "b.json", file_path := "/data/b.json",
                 location := Json.str "Unknown", temperature := 0, smoke_level := 0,
                 sensor_timestamp := 0, detection_timestamp := 0,
                 file_size := (10:Int), total_readings := 1 }] : List HistoryRow),
        r1.detection_id ≠ r2.detection_id) := by
  have h := C2_detection_ids_unique
    ⟨fun _ => none, fun _ => "", 0, "20250111_103000_000000"⟩
    ⟨fun _ => none, fun _ => "", 0, "20250111_103000_000001"⟩
    "a.json" "/data/a.json" "b.json" "/data/b.json" 10 10 [.obj []] [.obj []]
    [{ detection_id := "detection_20250111_103000_000000_0",
       file_name := "a.json", file_path := "/data/a.json",
       location := Json.str "Unknown", temperature := 0, smoke_level := 0,
       sensor_timestamp := 0, detection_timestamp := 0,
       file_size := 10, total_readings := 1 }]
    [{ detection_id := "detection_20250111_103000_000001_0",
       file_name := "b.json", file_path := "/data/b.json",
       location := Json.str "Unknown", temperature := 0, smoke_level := 0,
       sensor_timestamp := 0, detection_timestamp := 0,
       file_size := 10, total_readings := 1 }]
    rfl rfl rfl
  exact h

end ADK
